import Mathlib

/-!
Shallow embedding of the mediator state machine of
`raiden/transfer/mediated_transfer/mediator.py`.

Python integers are modelled as `Int` (arbitrary precision, no overflow).
Python exceptions (failed `assert`, `UnboundLocalError`, `IndexError`,
`TypeError`) are modelled as `Except.error` with a message naming the
exception.  Opaque identifiers (addresses, token ids, hashlocks, secrets)
are modelled as `Nat`.  The sub-state sentinels are the source's string
literals.

The repository files `state.py`, `events.py`, `state_change.py`,
`architecture.py` and `transition.py` are not part of the sources; their
record layouts are modelled from the spec (sections 3 and 6).  Following
the spec's data model, the per-side sub-state alphabet lives on the
mediation pair: the source's reads and writes of `transfer.state` are
modelled as the corresponding pair side sub-state, exactly as spec
section 4.8 describes those functions.
-/

namespace Mediator

/-- Modelled from the spec (section 3): an immutable HTLC record.
`secret` is optional, present only after reveal. -/
structure LockedTransferState where
  identifier : Nat
  amount : Int
  token : Nat
  target : Nat
  expiration : Int
  hashlock : Nat
  secret : Option Nat
  deriving Repr, DecidableEq

/-- Modelled from the spec (section 3): a candidate next-hop channel.
`settle_timeout` and `reveal_timeout` are block counts, non-negative by
the spec's data model. -/
structure RouteState where
  node_address : Nat
  channel_address : Nat
  available_balance : Int
  settle_timeout : Nat
  reveal_timeout : Nat
  close_block : Option Int
  deriving Repr, DecidableEq

/-- Modelled from the spec (section 3): ordered route bookkeeping. -/
structure RoutesState where
  available_routes : List RouteState
  ignored_routes : List RouteState
  refund_routes : List RouteState
  deriving Repr, DecidableEq

/-- Modelled from the spec (section 3): the pairing of a payer leg with a
payee leg; both sides start in the pending sub-state. -/
structure MediationPairState where
  payer_route : RouteState
  payer_transfer : LockedTransferState
  payee_route : RouteState
  payee_transfer : LockedTransferState
  payer_state : String := "payer_pending"
  payee_state : String := "payee_pending"
  deriving Repr, DecidableEq

/-- Modelled from the spec (section 3): the valid payee sub-states, used by
the assertion in `set_payee_state_and_check_reveal_order`. -/
def valid_payee_states : List String :=
  ["payee_pending", "payee_secret_revealed", "payee_contract_withdraw",
   "payee_balance_proof", "payee_expired"]

/-- Modelled from the spec (section 3): the mutable mediator aggregate. -/
structure MediatorState where
  our_address : Nat
  routes : RoutesState
  block_number : Int
  hashlock : Nat
  secret : Option Nat := none
  transfers_pair : List MediationPairState := []
  deriving Repr, DecidableEq

/-- Modelled from the spec (section 6): the outbound events. -/
inductive Event where
  | SendMediatedTransfer (transfer : LockedTransferState) (recipient : Nat)
  | SendRefundTransfer (identifier : Nat) (token : Nat) (amount : Int)
      (hashlock : Nat) (expiration : Int) (recipient : Nat)
  | SendRevealSecret (identifier : Nat) (secret : Option Nat)
      (recipient : Nat) (sender : Nat)
  | SendBalanceProof (identifier : Nat) (recipient : Nat)
  | ContractSendWithdraw (transfer : LockedTransferState) (channel_address : Nat)
  deriving Repr, DecidableEq

/-- Modelled from the spec (section 6 and design note on the `Iteration`
envelope): the (new state, outbound events) product; `new_state = none`
is the finalized state. -/
structure Iteration where
  new_state : Option MediatorState
  events : List Event
  deriving Repr, DecidableEq

/-- Modelled from the spec (section 6): the incoming state changes.
`ActionRouteChange` carries the route update applied by the (missing)
`update_route` helper, which per the spec only touches the routes
bookkeeping. -/
inductive StateChange where
  | ActionInitMediator (our_address : Nat) (routes : RoutesState)
      (block_number : Int) (from_route : RouteState)
      (from_transfer : LockedTransferState)
  | Block (block_number : Int)
  | ActionRouteChange (route_update : RoutesState → RoutesState)
  | ReceiveTransferRefund (sender : Nat) (transfer : LockedTransferState)
  | ReceiveSecretReveal (sender : Nat) (secret : Nat)
  | ReceiveBalanceProof (node_address : Nat)
  | ContractReceiveWithdraw (channel_address : Nat) (sender : Nat) (secret : Nat)

/-- Modelled from the spec (section 6): `mediatedtransfer` event helper
from the missing `events.py`: builds a `SendMediatedTransfer`. -/
def mediatedtransfer (transfer : LockedTransferState) (node_address : Nat) : Event :=
  Event.SendMediatedTransfer transfer node_address

/-- TRANSIT_BLOCKS constant from the source. -/
def TRANSIT_BLOCKS : Int := 2

/-- STATE_SECRET_KNOWN tuple from the source. -/
def STATE_SECRET_KNOWN : List String :=
  ["payee_secret_revealed", "payee_contract_withdraw", "payee_balance_proof",
   "payer_secret_revealed", "payer_contract_withdraw", "payer_balance_proof"]

/-- STATE_TRANSFER_PAYED tuple from the source. -/
def STATE_TRANSFER_PAYED : List String :=
  ["payee_contract_withdraw", "payee_balance_proof",
   "payer_contract_withdraw", "payer_balance_proof"]

/-- STATE_TRANSFER_FINAL tuple from the source. -/
def STATE_TRANSFER_FINAL : List String :=
  ["payee_contract_withdraw", "payee_balance_proof", "payee_expired",
   "payer_contract_withdraw", "payer_balance_proof", "payer_expired"]

/-- Source `is_lock_valid`: true if the lock has not expired. -/
def is_lock_valid (block_number : Int) (transfer : LockedTransferState) : Bool :=
  block_number ≤ transfer.expiration

/-- Source `is_safe_to_wait`. -/
def is_safe_to_wait (block_number : Int) (transfer : LockedTransferState)
    (reveal_timeout : Nat) : Bool :=
  block_number < transfer.expiration - (reveal_timeout : Int)

/-- Source `is_valid_refund`. -/
def is_valid_refund (original_transfer : LockedTransferState) (refund_sender : Nat)
    (refund_transfer : LockedTransferState) : Bool :=
  if refund_sender = original_transfer.target then
    false
  else
    original_transfer.identifier = refund_transfer.identifier ∧
    original_transfer.amount = refund_transfer.amount ∧
    original_transfer.hashlock = refund_transfer.hashlock ∧
    original_transfer.target = refund_transfer.target ∧
    original_transfer.expiration > refund_transfer.expiration

/-- Source `get_pending_transfer_pairs`. -/
def get_pending_transfer_pairs (transfers_pair : List MediationPairState) :
    List MediationPairState :=
  transfers_pair.filter fun pair =>
    !(STATE_TRANSFER_FINAL.contains pair.payee_state) ||
    !(STATE_TRANSFER_FINAL.contains pair.payer_state)

/-- Source `get_timeout_blocks`; the failed `assert` on `close_block` is an
error. -/
def get_timeout_blocks (payer_route : RouteState)
    (payer_transfer : LockedTransferState) (block_number : Int) :
    Except String Int := do
  let blocks_until_settlement : Int := (payer_route.settle_timeout : Int)
  let blocks_until_settlement ←
    match payer_route.close_block with
    | some close_block =>
        if block_number < close_block then
          Except.error ("AssertionError")
        else
          pure (blocks_until_settlement - (block_number - close_block))
    | none => pure blocks_until_settlement
  let safe_payer_timeout :=
    min blocks_until_settlement (payer_transfer.expiration - block_number)
  return safe_payer_timeout - TRANSIT_BLOCKS

/-- Source `clear_if_finalized`.  The handlers never produce a `none`
state, so the `none` case is unreachable; it keeps the function total. -/
def clear_if_finalized (iteration : Iteration) : Iteration :=
  match iteration.new_state with
  | none => iteration
  | some state =>
      let all_finalized := state.transfers_pair.all fun pair =>
        STATE_TRANSFER_FINAL.contains pair.payee_state &&
        STATE_TRANSFER_FINAL.contains pair.payer_state
      if all_finalized then ⟨none, iteration.events⟩ else iteration

/-- Loop of source `next_route`: pops candidates off the available list,
moving rejected ones to the ignored list. -/
def next_route_loop (timeout_blocks : Int) (transfer_amount : Int) :
    List RouteState → List RouteState →
    Option RouteState × List RouteState × List RouteState
  | [], ignored => (none, [], ignored)
  | route :: rest, ignored =>
      let lock_timeout := timeout_blocks - (route.reveal_timeout : Int)
      let enough_balance : Bool := route.available_balance ≥ transfer_amount
      if enough_balance && lock_timeout > 0 then
        (some route, rest, ignored)
      else
        next_route_loop timeout_blocks transfer_amount rest (ignored ++ [route])

/-- Source `next_route`; returns the chosen route (if any) together with
the mutated routes state. -/
def next_route (routes_state : RoutesState) (timeout_blocks : Int)
    (transfer_amount : Int) : Option RouteState × RoutesState :=
  let (route, avail, ignored) :=
    next_route_loop timeout_blocks transfer_amount
      routes_state.available_routes routes_state.ignored_routes
  (route, { routes_state with available_routes := avail, ignored_routes := ignored })

/-- Source `next_transfer_pair`.  Failed asserts are errors.  Alongside the
optional pair and the events, the mutated routes state is returned. -/
def next_transfer_pair (payer_route : RouteState)
    (payer_transfer : LockedTransferState) (routes_state : RoutesState)
    (timeout_blocks : Int) (block_number : Int) :
    Except String (Option MediationPairState × List Event × RoutesState) := do
  if !(timeout_blocks > 0) then
    Except.error ("AssertionError: timeout_blocks")
  else if !(timeout_blocks ≤ payer_transfer.expiration - block_number) then
    Except.error ("AssertionError: timeout_blocks bound")
  else
    let nr := next_route routes_state timeout_blocks payer_transfer.amount
    let routes_state := nr.2
    match nr.1 with
    | none => return (none, [], routes_state)
    | some payee_route =>
        if !((payee_route.reveal_timeout : Int) < timeout_blocks) then
          Except.error ("AssertionError: reveal_timeout")
        else
          let lock_timeout := timeout_blocks - (payee_route.reveal_timeout : Int)
          let lock_expiration := lock_timeout + block_number
          let payee_transfer : LockedTransferState :=
            { identifier := payer_transfer.identifier
              amount := payer_transfer.amount
              token := payer_transfer.token
              target := payer_transfer.target
              expiration := lock_expiration
              hashlock := payer_transfer.hashlock
              secret := payer_transfer.secret }
          let transfer_pair : MediationPairState :=
            { payer_route := payer_route
              payer_transfer := payer_transfer
              payee_route := payee_route
              payee_transfer := payee_transfer }
          let mediated_events := [mediatedtransfer payee_transfer payer_route.node_address]
          return (some transfer_pair, mediated_events, routes_state)

/-- Source `set_secret`: sets the secret on the state and on every transfer
of every pair. -/
def set_secret (state : MediatorState) (secret : Nat) : MediatorState :=
  { state with
    secret := some secret
    transfers_pair := state.transfers_pair.map fun pair =>
      { pair with
        payer_transfer := { pair.payer_transfer with secret := some secret }
        payee_transfer := { pair.payee_transfer with secret := some secret } } }

/-- Loop of source `set_payee_state_and_check_reveal_order`, run on the
reversed pair list: updates the first pair sent to `payee_address` and
leaves the rest alone.  The source also computes a `wrong_reveal_order`
flag from the pairs walked past, but returns an empty event list either
way, so the flag is not modelled. -/
def set_payee_go (payee_address : Nat) (new_payee_state : String) :
    List MediationPairState → List MediationPairState
  | [] => []
  | back :: rest =>
      if back.payee_route.node_address = payee_address then
        { back with payee_state := new_payee_state } :: rest
      else
        back :: set_payee_go payee_address new_payee_state rest

/-- Source `set_payee_state_and_check_reveal_order`; the failed `assert`
on the sub-state alphabet is an error, and the returned event list is
always empty. -/
def set_payee_state_and_check_reveal_order (transfers_pair : List MediationPairState)
    (payee_address : Nat) (new_payee_state : String) :
    Except String (List MediationPairState × List Event) :=
  if valid_payee_states.contains new_payee_state then
    Except.ok ((set_payee_go payee_address new_payee_state transfers_pair.reverse).reverse, [])
  else
    Except.error ("AssertionError: valid_payee_states")

/-- Loop of source `events_for_revealsecret`, run on the reversed pair
list: each pair whose payee side knows the secret while the payer side
does not is moved to `payer_secret_revealed` and produces a
`SendRevealSecret` to the payer hop. -/
def reveal_go (our_address : Nat) :
    List MediationPairState → List MediationPairState × List Event
  | [] => ([], [])
  | pair :: rest =>
      let (pairs, events) := reveal_go our_address rest
      if STATE_SECRET_KNOWN.contains pair.payee_state &&
         !(STATE_SECRET_KNOWN.contains pair.payer_state) then
        ({ pair with payer_state := "payer_secret_revealed" } :: pairs,
         Event.SendRevealSecret pair.payer_transfer.identifier
           pair.payer_transfer.secret pair.payer_route.node_address our_address
           :: events)
      else
        (pair :: pairs, events)

/-- Source `events_for_revealsecret`: reveal the secret backwards. -/
def events_for_revealsecret (state : MediatorState) : MediatorState × List Event :=
  let (pairs, events) := reveal_go state.our_address state.transfers_pair.reverse
  ({ state with transfers_pair := pairs.reverse }, events)

/-- Loop of source `events_for_balanceproof`, run on the reversed pair
list. -/
def balanceproof_go (block_number : Int) :
    List MediationPairState → List MediationPairState × List Event
  | [] => ([], [])
  | pair :: rest =>
      let (pairs, events) := balanceproof_go block_number rest
      if STATE_SECRET_KNOWN.contains pair.payee_state &&
         !(STATE_TRANSFER_PAYED.contains pair.payee_state) &&
         is_lock_valid block_number pair.payee_transfer then
        ({ pair with payee_state := "payee_balance_proof" } :: pairs,
         Event.SendBalanceProof pair.payee_transfer.identifier
           pair.payee_route.node_address :: events)
      else
        (pair :: pairs, events)

/-- Source `events_for_balanceproof`: send the balance proof to payees
that know the secret, are not yet payed and whose lock is still valid. -/
def events_for_balanceproof (state : MediatorState) : MediatorState × List Event :=
  let (pairs, events) := balanceproof_go state.block_number state.transfers_pair.reverse
  ({ state with transfers_pair := pairs.reverse }, events)

/-- Source `events_for_refund_transfer`. -/
def events_for_refund_transfer (refund_route : RouteState)
    (refund_transfer : LockedTransferState) (timeout_blocks : Int)
    (block_number : Int) : List Event :=
  let new_lock_timeout := timeout_blocks - (refund_route.reveal_timeout : Int)
  if new_lock_timeout > 0 then
    let new_lock_expiration := new_lock_timeout + block_number
    [Event.SendRefundTransfer refund_transfer.identifier refund_transfer.token
      refund_transfer.amount refund_transfer.hashlock new_lock_expiration
      refund_route.node_address]
  else
    []

/-- Source `secret_learned`: record the secret, move the addressed payee
sub-state, then reveal backwards and send balance proofs; the events are
the concatenation wrong_order + secret_reveal + balance_proof. -/
def secret_learned (state : MediatorState) (secret : Nat) (payee_address : Nat)
    (new_payee_state : String) : Except String Iteration := do
  if !(STATE_SECRET_KNOWN.contains new_payee_state) then
    Except.error ("AssertionError: new_payee_state")
  else
    let state := if state.secret = none then set_secret state secret else state
    let sp ←
      set_payee_state_and_check_reveal_order state.transfers_pair
        payee_address new_payee_state
    let wrong_order := sp.2
    let state := { state with transfers_pair := sp.1 }
    let rs := events_for_revealsecret state
    let secret_reveal := rs.2
    let state := rs.1
    let bp := events_for_balanceproof state
    let balance_proof := bp.2
    let state := bp.1
    return ⟨some state, wrong_order ++ secret_reveal ++ balance_proof⟩

/-- Source `mediate_transfer`. -/
def mediate_transfer (state : MediatorState) (payer_route : RouteState)
    (payer_transfer : LockedTransferState) : Except String Iteration := do
  let timeout_blocks ← get_timeout_blocks payer_route payer_transfer state.block_number
  let ntp ←
    if timeout_blocks > 0 then
      next_transfer_pair payer_route payer_transfer state.routes
        timeout_blocks state.block_number
    else
      pure (none, ([] : List Event), state.routes)
  let transfer_pair := ntp.1
  let mediated_events := ntp.2.1
  let state := { state with routes := ntp.2.2 }
  match transfer_pair with
  | none =>
      let original :=
        match state.transfers_pair with
        | pair :: _ => (pair.payer_route, pair.payer_transfer)
        | [] => (payer_route, payer_transfer)
      let refund_events :=
        events_for_refund_transfer original.1 original.2
          timeout_blocks state.block_number
      return ⟨some state, refund_events⟩
  | some pair =>
      -- the list must be ordered from high to low expiration
      return ⟨some { state with transfers_pair := state.transfers_pair ++ [pair] },
              mediated_events⟩

/-- Withdraw-escalation part of the `handle_block` loop body: when the
payee side is payed, the payer side is not, and the pair is not already
withdrawing, an unsafe wait moves the payer side to waiting-withdraw and
emits a `ContractSendWithdraw`. -/
def block_withdraw_step (block_number : Int) (pair : MediationPairState) :
    MediationPairState × List Event :=
  let payee_payed := STATE_TRANSFER_PAYED.contains pair.payee_state
  let payer_payed := STATE_TRANSFER_PAYED.contains pair.payer_state
  let witdrawing := pair.payer_state = "payer_waiting_withdraw"
  if payee_payed && !payer_payed && !witdrawing then
    if !(is_safe_to_wait block_number pair.payer_transfer
          pair.payer_route.reveal_timeout) then
      ({ pair with payer_state := "payer_waiting_withdraw" },
       [Event.ContractSendWithdraw pair.payer_transfer
          pair.payer_route.channel_address])
    else
      (pair, [])
  else
    (pair, [])

/-- Per-pair body of the `handle_block` loop: the unsafe-to-wait withdraw
escalation followed by the expiration marking with its assertion. -/
def block_pair_update (block_number : Int) (pair : MediationPairState) :
    Except String (MediationPairState × List Event) :=
  let step := block_withdraw_step block_number pair
  let pair := step.1
  let events := step.2
  if pair.payer_transfer.expiration > block_number then
    if STATE_TRANSFER_PAYED.contains pair.payee_state then
      Except.error ("AssertionError: payee_state in STATE_TRANSFER_PAYED")
    else
      Except.ok ({ pair with payee_state := "payee_expired",
                             payer_state := "payer_expired" }, events)
  else
    Except.ok (pair, events)

/-- Whether a pair is selected by `get_pending_transfer_pairs`. -/
def pair_pending (pair : MediationPairState) : Bool :=
  !(STATE_TRANSFER_FINAL.contains pair.payee_state) ||
  !(STATE_TRANSFER_FINAL.contains pair.payer_state)

/-- Source `handle_block`.  The loop iterates the pending pairs in
reversed order, mutating each in place and appending its events; the new
pair list is the old one with every pending pair replaced by its update
(the per-pair update only depends on the pair itself). -/
def handle_block (state : MediatorState) (block_number : Int) :
    Except String Iteration := do
  let state := { state with block_number := block_number }
  let pending := get_pending_transfer_pairs state.transfers_pair
  let events ← pending.reverse.foldlM
    (fun acc pair =>
      (block_pair_update block_number pair).map fun x => acc ++ x.2)
    ([] : List Event)
  let pairs := state.transfers_pair.map fun pair =>
    if pair_pending pair then
      match block_pair_update block_number pair with
      | Except.ok (pair, _) => pair
      | Except.error _ => pair
    else
      pair
  return ⟨some { state with transfers_pair := pairs }, events⟩

/-- Source `handle_refundtransfer`.  The module-level `assert` on the
secret and the `transfers_pair[-1]` indexing of an empty list are
errors. -/
def handle_refundtransfer (state : MediatorState) (sender : Nat)
    (transfer : LockedTransferState) : Except String Iteration := do
  if !(state.secret = none) then
    Except.error ("AssertionError: refunds are not allowed if the secret is revealed")
  else
    match state.transfers_pair.getLast? with
    | none => Except.error ("IndexError")
    | some transfer_pair =>
        let payee_transfer := transfer_pair.payee_transfer
        if is_valid_refund payee_transfer sender transfer then
          let payer_route := transfer_pair.payee_route
          let payer_transfer := transfer
          let state := { state with routes :=
            { state.routes with refund_routes :=
                state.routes.refund_routes ++ [payer_route] } }
          mediate_transfer state payer_route payer_transfer
        else
          return ⟨some state, []⟩

/-- Source `handle_secretreveal`; `sha3` is the abstract hash the core
consumes (spec section 6). -/
def handle_secretreveal (sha3 : Nat → Nat) (state : MediatorState)
    (sender : Nat) (secret : Nat) : Except String Iteration :=
  if sha3 secret = state.hashlock then
    secret_learned state secret sender "payee_secret_revealed"
  else
    Except.ok ⟨some state, []⟩

/-- Source `handle_contractwithdraw`.  Hashing an unset secret is a
`TypeError`; a failed hash check is the module assert.  When a pair
matches the withdrawn channel the source sets its payer sub-state and
breaks, but never assigns `iteration`, so the return statement raises
`UnboundLocalError`. -/
def handle_contractwithdraw (sha3 : Nat → Nat) (state : MediatorState)
    (channel_address : Nat) (sender : Nat) (secret : Nat) :
    Except String Iteration :=
  match state.secret with
  | none => Except.error ("TypeError: sha3 of None")
  | some state_secret =>
      if !(sha3 state_secret = state.hashlock) then
        Except.error ("AssertionError: secret must be validated by the smart contract")
      else if state.transfers_pair.any
            (fun pair => pair.payer_route.channel_address = channel_address) then
        Except.error ("UnboundLocalError: iteration")
      else
        secret_learned state secret sender "payee_contract_withdraw"

/-- Source `handle_balanceproof`: every pair whose payer channel matches
the event's `node_address` moves to `payer_balance_proof`. -/
def handle_balanceproof (state : MediatorState) (node_address : Nat) : Iteration :=
  let pairs := state.transfers_pair.map fun pair =>
    if pair.payer_route.channel_address = node_address then
      { pair with payer_state := "payer_balance_proof" }
    else
      pair
  ⟨some { state with transfers_pair := pairs }, []⟩

/-- Source `handle_routechange`; `update_route` is modelled from the spec
as a routes-bookkeeping update carried by the state change. -/
def handle_routechange (state : MediatorState)
    (route_update : RoutesState → RoutesState) : Iteration :=
  ⟨some { state with routes := route_update state.routes }, []⟩

/-- Source `state_transition`.  A (state, state_change) combination for
which no branch assigns `iteration` raises `UnboundLocalError` at the
return statement. -/
def state_transition (sha3 : Nat → Nat) (state : Option MediatorState)
    (state_change : StateChange) : Except String Iteration :=
  let iteration : Except String Iteration :=
    match state with
    | none =>
        match state_change with
        | StateChange.ActionInitMediator our_address routes block_number
            from_route from_transfer =>
            let state : MediatorState :=
              { our_address := our_address
                routes := routes
                block_number := block_number
                hashlock := from_transfer.hashlock }
            mediate_transfer state from_route from_transfer
        | _ => Except.error ("UnboundLocalError: iteration")
    | some state =>
        if state.secret = none then
          match state_change with
          | StateChange.Block block_number => handle_block state block_number
          | StateChange.ActionRouteChange route_update =>
              Except.ok (handle_routechange state route_update)
          | StateChange.ReceiveTransferRefund sender transfer =>
              handle_refundtransfer state sender transfer
          | StateChange.ReceiveSecretReveal sender secret =>
              handle_secretreveal sha3 state sender secret
          | StateChange.ContractReceiveWithdraw channel_address sender secret =>
              handle_contractwithdraw sha3 state channel_address sender secret
          | _ => Except.error ("UnboundLocalError: iteration")
        else
          match state_change with
          | StateChange.Block block_number => handle_block state block_number
          | StateChange.ReceiveSecretReveal sender secret =>
              handle_secretreveal sha3 state sender secret
          | StateChange.ReceiveBalanceProof node_address =>
              Except.ok (handle_balanceproof state node_address)
          | StateChange.ContractReceiveWithdraw channel_address sender secret =>
              handle_contractwithdraw sha3 state channel_address sender secret
          | _ => Except.error ("UnboundLocalError: iteration")
  iteration.map clear_if_finalized

/-!
Concrete scenario data (spec section 8: `reveal_timeout = 5`,
`TRANSIT_MARGIN = 2`, `settle_timeout = 50`).  The mediator is node N
(address 50), the payer hop is A (address 10, channel 11), the payee hop
is B (address 20, channel 21); token 7, transfer identifier 1, target 77,
secret 8, hashlock `sha3c 8 = 9`.
-/

/-- Concrete stand-in for the abstract hash the core consumes. -/
def sha3c : Nat → Nat := fun n => n + 1

/-- Route from payer hop A. -/
def routeA : RouteState := ⟨10, 11, 10, 50, 5, none⟩

/-- Route to payee hop B. -/
def routeB : RouteState := ⟨20, 21, 10, 50, 5, none⟩

/-- Scenario 1 payer transfer: expiration 100, amount 10, hashlock 9. -/
def fromTransfer : LockedTransferState := ⟨1, 10, 7, 77, 100, 9, none⟩

/-- Scenario 1 init action at block 10 with the single route to B. -/
def initAction : StateChange :=
  StateChange.ActionInitMediator 50 ⟨[routeB], [], []⟩ 10 routeA fromTransfer

/-- The payee transfer the mediation of scenario 1 constructs:
`timeout_blocks = min(50, 100 - 10) - 2 = 48`, payee expiration
`48 - 5 + 10 = 53`. -/
def payeeT : LockedTransferState := ⟨1, 10, 7, 77, 53, 9, none⟩

/-- The transfer pair of scenario 1. -/
def pair1 : MediationPairState :=
  ⟨routeA, fromTransfer, routeB, payeeT, "payer_pending", "payee_pending"⟩

/-- The mediator state after the scenario 1 init. -/
def st1 : MediatorState := ⟨50, ⟨[], [], []⟩, 10, 9, none, [pair1]⟩

/-- Scenario 3 payer transfer with the tight expiration 15. -/
def ft15 : LockedTransferState := ⟨1, 10, 7, 77, 15, 9, none⟩

/-- Scenario 3 init action. -/
def initAction3 : StateChange :=
  StateChange.ActionInitMediator 50 ⟨[routeB], [], []⟩ 10 routeA ft15

/-- Scenario 4 payer transfer, secret already learned. -/
def payerT4 : LockedTransferState := ⟨1, 10, 7, 77, 100, 9, some 8⟩

/-- Scenario 4 pair: payee payed off-chain, payer silent. -/
def pair4 : MediationPairState :=
  ⟨routeA, payerT4, routeB, ⟨1, 10, 7, 77, 53, 9, some 8⟩,
   "payer_pending", "payee_balance_proof"⟩

/-- Scenario 4 mediator state. -/
def st4 : MediatorState := ⟨50, ⟨[], [], []⟩, 10, 9, some 8, [pair4]⟩

/-- Scenario 5 refund transfer whose expiration 53 equals the original
payee transfer's expiration. -/
def refundEq : LockedTransferState := ⟨1, 10, 7, 77, 53, 9, none⟩

/-- Empty-routes mediator state for scenario 2. -/
def st2empty : MediatorState := ⟨50, ⟨[], [], []⟩, 10, 9, none, []⟩

/-- A state whose single pair is final on both sides. -/
def stFinal : MediatorState :=
  ⟨50, ⟨[], [], []⟩, 10, 9, some 8,
   [⟨routeA, payerT4, routeB, ⟨1, 10, 7, 77, 53, 9, some 8⟩,
     "payer_balance_proof", "payee_balance_proof"⟩]⟩

/-- Expiration pair (payer, payee) of a mediation pair; the orderings the
invariants speak about only depend on it. -/
def pair_exps (pair : MediationPairState) : Int × Int :=
  (pair.payer_transfer.expiration, pair.payee_transfer.expiration)

/-- Invariant P2 of the spec together with the per-pair expiration order
that makes it inductive: the pair list is strictly decreasing in payer
expiration, and each payee lock expires no later than its payer lock. -/
def mediator_inv (state : MediatorState) : Prop :=
  List.Chain'
    (fun a b => b.payer_transfer.expiration < a.payer_transfer.expiration)
    state.transfers_pair ∧
  ∀ pair ∈ state.transfers_pair,
    pair.payee_transfer.expiration ≤ pair.payer_transfer.expiration

/-- Unfolding of `is_valid_refund` into the six conditions of the spec. -/
theorem is_valid_refund_true_iff (o : LockedTransferState) (s : Nat)
    (r : LockedTransferState) :
    is_valid_refund o s r = true ↔
      (s ≠ o.target ∧ o.identifier = r.identifier ∧ o.amount = r.amount ∧
       o.hashlock = r.hashlock ∧ o.target = r.target ∧
       r.expiration < o.expiration) := by
  unfold is_valid_refund
  split
  · simp_all
  · simp_all [GT.gt]

/-- C1: the block handler's expiration marking is inverted.  At block 50
the payer lock (expiration 100) is still valid, yet `handle_block` marks
both sides of the pending pair expired; at block 101, after the lock has
actually expired, the pair is left pending and is never marked.  The
claim states the opposite polarity (mark only after expiry, never while
the lock is valid). -/
theorem handle_block_marks_expired_while_lock_valid :
    is_lock_valid 50 fromTransfer = true ∧
    handle_block st1 50 =
      Except.ok ⟨some ⟨50, ⟨[], [], []⟩, 50, 9, none,
        [⟨routeA, fromTransfer, routeB, payeeT, "payer_expired", "payee_expired"⟩]⟩, []⟩ ∧
    is_lock_valid 101 fromTransfer = false ∧
    handle_block st1 101 =
      Except.ok ⟨some ⟨50, ⟨[], [], []⟩, 101, 9, none,
        [⟨routeA, fromTransfer, routeB, payeeT, "payer_pending", "payee_pending"⟩]⟩, []⟩ :=
  ⟨rfl, rfl, rfl, rfl⟩

/-- C2: the transition function is not total.  An event the current phase
does not accept leaves the local `iteration` unassigned, so the return
statement raises `UnboundLocalError` instead of silently returning the
state unchanged; in particular a `Block` delivered to the finalized
state raises instead of producing the claimed `(⊥, [])`, and a
`ReceiveBalanceProof` delivered in the secret-unknown phase raises as
well. -/
theorem state_transition_unhandled_event_raises :
    state_transition sha3c none (StateChange.Block 5) =
      Except.error ("UnboundLocalError: iteration") ∧
    state_transition sha3c (some st1) (StateChange.ReceiveBalanceProof 11) =
      Except.error ("UnboundLocalError: iteration") :=
  ⟨rfl, rfl⟩

/-- C5: scenario 4 at the unsafe block.  `is_safe_to_wait` itself flips
from true at block 89 to false at block 95 as the claim says, but
`handle_block` never returns the `ContractSendWithdraw`: after appending
the withdraw event it enters the inverted expiration branch (the payer
lock, expiration 100, is still valid) and its assertion that the payee
side is not PAID fails, so the handler raises `AssertionError` at both
block 89 and block 95 instead of returning an iteration. -/
theorem handle_block_withdraw_crashes_on_assert :
    is_safe_to_wait 89 payerT4 5 = true ∧
    is_safe_to_wait 95 payerT4 5 = false ∧
    handle_block st4 95 =
      Except.error ("AssertionError: payee_state in STATE_TRANSFER_PAYED") ∧
    handle_block st4 89 =
      Except.error ("AssertionError: payee_state in STATE_TRANSFER_PAYED") :=
  ⟨rfl, rfl, rfl, rfl⟩

/-- C8: `handle_contractwithdraw` on a matching pair never assigns
`iteration`, so it raises `UnboundLocalError` instead of returning a
well-defined result; the no-match path does reduce to
`secret_learned(..., payee_contract_withdraw)` as claimed. -/
theorem handle_contractwithdraw_matching_pair_raises :
    pair4.payer_route.channel_address = 11 ∧
    handle_contractwithdraw sha3c st4 11 10 8 =
      Except.error ("UnboundLocalError: iteration") ∧
    handle_contractwithdraw sha3c st4 999 20 8 =
      secret_learned st4 8 20 "payee_contract_withdraw" :=
  ⟨rfl, rfl, rfl⟩

/-- C3 counterexample: in the single-pair happy path the event list is
`SendRevealSecret` to the payer followed by `SendBalanceProof` to the
payee, not the claimed `SendBalanceProof` first: `secret_learned`
concatenates wrong_order + secret_reveal + balance_proof. -/
theorem handle_secretreveal_order_reveal_first :
    handle_secretreveal sha3c st1 20 8 =
      Except.ok ⟨some ⟨50, ⟨[], [], []⟩, 10, 9, some 8,
        [⟨routeA, ⟨1, 10, 7, 77, 100, 9, some 8⟩, routeB, ⟨1, 10, 7, 77, 53, 9, some 8⟩,
          "payer_secret_revealed", "payee_balance_proof"⟩]⟩,
        [Event.SendRevealSecret 1 (some 8) 10 50, Event.SendBalanceProof 1 20]⟩ ∧
    [Event.SendRevealSecret 1 (some 8) 10 50, Event.SendBalanceProof 1 20] ≠
      [Event.SendBalanceProof 1 20, Event.SendRevealSecret 1 (some 8) 10 50] :=
  ⟨rfl, by decide⟩

/-- C4 counterexample: in scenario 1 (`timeout_blocks = min(50, 100 - 10)
- 2 = 48`) the single `SendMediatedTransfer` goes to
`payer_route.node_address`, the upstream hop A (address 10), not to the
payee hop B (address 20), and the payee expiration is 53, not the
claimed 93. -/
theorem next_transfer_pair_recipient_and_expiration :
    get_timeout_blocks routeA fromTransfer 10 = Except.ok 48 ∧
    next_transfer_pair routeA fromTransfer ⟨[routeB], [], []⟩ 48 10 =
      Except.ok (some pair1, [Event.SendMediatedTransfer payeeT 10], ⟨[], [], []⟩) ∧
    routeB.node_address = 20 ∧
    (10 : Nat) ≠ 20 ∧
    payeeT.expiration = 53 ∧
    (53 : Int) ≠ 93 :=
  ⟨rfl, rfl, rfl, by decide, rfl, by decide⟩

/-- C7 counterexample: in scenario 2 (no available route) the refund
expiration is `timeout_blocks - reveal_timeout + block = 48 - 5 + 10 =
53`, not the claimed 93; the transfer pair list stays empty. -/
theorem mediate_transfer_refund_expiration_53 :
    mediate_transfer st2empty routeA fromTransfer =
      Except.ok ⟨some st2empty, [Event.SendRefundTransfer 1 7 10 9 53 10]⟩ ∧
    st2empty.transfers_pair = [] ∧
    Event.SendRefundTransfer 1 7 10 9 53 10 ≠ Event.SendRefundTransfer 1 7 10 9 93 10 :=
  ⟨rfl, rfl, by decide⟩

/-- C10 counterexample: scenario 3 does produce no events, but the
returned state is the finalized `⊥`, not the initialized mediator state:
the freshly initialized state has an empty `transfers_pair`, and
`clear_if_finalized` treats the empty list as all-final. -/
theorem init_with_tight_timeout_finalizes :
    state_transition sha3c none initAction3 = Except.ok ⟨none, []⟩ ∧
    (none : Option MediatorState) ≠
      some ⟨50, ⟨[routeB], [], []⟩, 10, 9, none, []⟩ :=
  ⟨rfl, by decide⟩

/-- C6: `is_valid_refund` holds exactly when the sender differs from the
original target, identifier, amount, hashlock and target agree, and the
refund expiration is strictly below the original's; and
`handle_refundtransfer` on an invalid refund (in particular one whose
expiration merely equals the original's) returns the state unchanged
with no events. -/
theorem refund_validation_characterization :
    (∀ (o : LockedTransferState) (s : Nat) (r : LockedTransferState),
      is_valid_refund o s r = true ↔
        (s ≠ o.target ∧ o.identifier = r.identifier ∧ o.amount = r.amount ∧
         o.hashlock = r.hashlock ∧ o.target = r.target ∧
         r.expiration < o.expiration)) ∧
    (∀ (st : MediatorState) (s : Nat) (r : LockedTransferState)
        (tp : MediationPairState),
      st.secret = none →
      st.transfers_pair.getLast? = some tp →
      is_valid_refund tp.payee_transfer s r = false →
      handle_refundtransfer st s r = Except.ok ⟨some st, []⟩) := by
  refine ⟨is_valid_refund_true_iff, ?_⟩
  intro st s r tp hsec hlast hinvalid
  unfold handle_refundtransfer
  simp [hsec, hlast, hinvalid]
  rfl

/-- Witness for C6: scenario 5, a refund from B whose expiration 53
equals the original payee expiration, is rejected without state change
or events. -/
theorem refund_validation_characterization_witness :
    st1.secret = none ∧
    st1.transfers_pair.getLast? = some pair1 ∧
    is_valid_refund pair1.payee_transfer 20 refundEq = false ∧
    handle_refundtransfer st1 20 refundEq = Except.ok ⟨some st1, []⟩ :=
  ⟨rfl, rfl, rfl,
   refund_validation_characterization.2 st1 20 refundEq pair1 rfl rfl rfl⟩

/-- Characterization of the `events_for_revealsecret` loop: each pair is
updated independently, and one event per selected pair is emitted in
tail-to-head order. -/
theorem reveal_go_spec (our : Nat) (l : List MediationPairState) :
    reveal_go our l =
      (l.map fun p =>
        if STATE_SECRET_KNOWN.contains p.payee_state &&
           !(STATE_SECRET_KNOWN.contains p.payer_state) then
          { p with payer_state := "payer_secret_revealed" } else p,
       (l.filter fun p =>
          STATE_SECRET_KNOWN.contains p.payee_state &&
          !(STATE_SECRET_KNOWN.contains p.payer_state)).map fun p =>
        Event.SendRevealSecret p.payer_transfer.identifier
          p.payer_transfer.secret p.payer_route.node_address our) := by
  induction l with
  | nil => rfl
  | cons p rest ih =>
      rw [reveal_go, ih]
      clear ih
      cases h : (STATE_SECRET_KNOWN.contains p.payee_state &&
          !(STATE_SECRET_KNOWN.contains p.payer_state)) <;>
        simp_all [List.filter_cons]
      rw [if_neg (by tauto)]

/-- Characterization of the `events_for_balanceproof` loop. -/
theorem balanceproof_go_spec (bn : Int) (l : List MediationPairState) :
    balanceproof_go bn l =
      (l.map fun p =>
        if STATE_SECRET_KNOWN.contains p.payee_state &&
           !(STATE_TRANSFER_PAYED.contains p.payee_state) &&
           is_lock_valid bn p.payee_transfer then
          { p with payee_state := "payee_balance_proof" } else p,
       (l.filter fun p =>
          STATE_SECRET_KNOWN.contains p.payee_state &&
          !(STATE_TRANSFER_PAYED.contains p.payee_state) &&
          is_lock_valid bn p.payee_transfer).map fun p =>
        Event.SendBalanceProof p.payee_transfer.identifier
          p.payee_route.node_address) := by
  induction l with
  | nil => rfl
  | cons p rest ih =>
      rw [balanceproof_go, ih]
      clear ih
      cases h : (STATE_SECRET_KNOWN.contains p.payee_state &&
          !(STATE_TRANSFER_PAYED.contains p.payee_state) &&
          is_lock_valid bn p.payee_transfer) <;>
        simp_all [List.filter_cons]
      rw [if_neg (by simp_all)]

/-- C3 (amended): `events_for_revealsecret` moves every pair whose payee
side knows the secret while the payer side does not to
`payer_secret_revealed`, emitting one `SendRevealSecret` to
`payer_route.node_address` per such pair (tail to head);
`events_for_balanceproof` moves every payee side that knows the secret,
is not PAID and whose lock is still valid to `payee_balance_proof`,
emitting `SendBalanceProof`; in the single-pair happy path the event
list is `SendRevealSecret` to the payer followed by `SendBalanceProof`
to the payee. -/
theorem secret_learned_reveal_then_balanceproof :
    (∀ st : MediatorState,
      events_for_revealsecret st =
        ({ st with transfers_pair := st.transfers_pair.map fun p =>
            if STATE_SECRET_KNOWN.contains p.payee_state &&
               !(STATE_SECRET_KNOWN.contains p.payer_state) then
              { p with payer_state := "payer_secret_revealed" } else p },
         (st.transfers_pair.reverse.filter fun p =>
            STATE_SECRET_KNOWN.contains p.payee_state &&
            !(STATE_SECRET_KNOWN.contains p.payer_state)).map fun p =>
          Event.SendRevealSecret p.payer_transfer.identifier
            p.payer_transfer.secret p.payer_route.node_address
            st.our_address)) ∧
    (∀ st : MediatorState,
      events_for_balanceproof st =
        ({ st with transfers_pair := st.transfers_pair.map fun p =>
            if STATE_SECRET_KNOWN.contains p.payee_state &&
               !(STATE_TRANSFER_PAYED.contains p.payee_state) &&
               is_lock_valid st.block_number p.payee_transfer then
              { p with payee_state := "payee_balance_proof" } else p },
         (st.transfers_pair.reverse.filter fun p =>
            STATE_SECRET_KNOWN.contains p.payee_state &&
            !(STATE_TRANSFER_PAYED.contains p.payee_state) &&
            is_lock_valid st.block_number p.payee_transfer).map fun p =>
          Event.SendBalanceProof p.payee_transfer.identifier
            p.payee_route.node_address)) ∧
    handle_secretreveal sha3c st1 20 8 =
      Except.ok ⟨some ⟨50, ⟨[], [], []⟩, 10, 9, some 8,
        [⟨routeA, ⟨1, 10, 7, 77, 100, 9, some 8⟩, routeB,
          ⟨1, 10, 7, 77, 53, 9, some 8⟩,
          "payer_secret_revealed", "payee_balance_proof"⟩]⟩,
        [Event.SendRevealSecret 1 (some 8) 10 50,
         Event.SendBalanceProof 1 20]⟩ := by
  refine ⟨?_, ?_, rfl⟩
  · intro st
    unfold events_for_revealsecret
    rw [reveal_go_spec]
    simp [List.map_reverse]
  · intro st
    unfold events_for_balanceproof
    rw [balanceproof_go_spec]
    simp [List.map_reverse]

/-- Shape of a successful pair construction: the payee transfer copies
every field of the payer transfer except the expiration, which is
`timeout_blocks - payee_route.reveal_timeout + block_number`; both sides
start pending, one `SendMediatedTransfer` to `payer_route.node_address`
is emitted, and the asserts bound `timeout_blocks`. -/
theorem next_transfer_pair_ok_some_spec (pr : RouteState)
    (pt : LockedTransferState) (rs : RoutesState) (tb bn : Int)
    (pair : MediationPairState) (evs : List Event) (rs2 : RoutesState)
    (h : next_transfer_pair pr pt rs tb bn = Except.ok (some pair, evs, rs2)) :
    pair.payer_route = pr ∧ pair.payer_transfer = pt ∧
    pair.payer_state = "payer_pending" ∧ pair.payee_state = "payee_pending" ∧
    pair.payee_transfer = ⟨pt.identifier, pt.amount, pt.token, pt.target,
      tb - (pair.payee_route.reveal_timeout : Int) + bn, pt.hashlock,
      pt.secret⟩ ∧
    evs = [Event.SendMediatedTransfer pair.payee_transfer pr.node_address] ∧
    0 < tb ∧ tb ≤ pt.expiration - bn := by
  unfold next_transfer_pair at h
  rcases hnr : next_route rs tb pt.amount with ⟨orr, rsx⟩
  rw [hnr] at h
  split at h
  · simp at h
  · split at h
    · simp at h
    · rename_i h1 h2
      cases orr with
      | none => simp [pure, Except.pure] at h
      | some r =>
          dsimp only at h
          split at h
          · simp at h
          · simp only [pure, Except.pure, Except.ok.injEq, Prod.mk.injEq,
              Option.some.injEq] at h
            obtain ⟨hpair, hevs, hrs⟩ := h
            subst hpair
            refine ⟨rfl, rfl, rfl, rfl, rfl, ?_, ?_, ?_⟩
            · rw [← hevs]; rfl
            · simpa using h1
            · simpa using h2

/-- C4 (amended): `next_transfer_pair` copies identifier, amount, token,
target, hashlock and current secret from the payer transfer, derives the
payee expiration `(timeout_blocks - payee_route.reveal_timeout) +
block_number`, and emits exactly one `SendMediatedTransfer` carrying the
payee transfer addressed to `payer_route.node_address` (the upstream
payer hop); in scenario 1 the chosen payee route is B but the recipient
is A (address 10) and the payee expiration is 53. -/
theorem next_transfer_pair_copies_fields_and_emits_once :
    (∀ (pr : RouteState) (pt : LockedTransferState) (rs : RoutesState)
        (tb bn : Int) (pair : MediationPairState) (evs : List Event)
        (rs2 : RoutesState),
      next_transfer_pair pr pt rs tb bn = Except.ok (some pair, evs, rs2) →
      pair.payee_transfer = ⟨pt.identifier, pt.amount, pt.token, pt.target,
        tb - (pair.payee_route.reveal_timeout : Int) + bn, pt.hashlock,
        pt.secret⟩ ∧
      evs = [Event.SendMediatedTransfer pair.payee_transfer pr.node_address]) ∧
    (get_timeout_blocks routeA fromTransfer 10 = Except.ok 48 ∧
     next_transfer_pair routeA fromTransfer ⟨[routeB], [], []⟩ 48 10 =
       Except.ok (some pair1, [Event.SendMediatedTransfer payeeT 10], ⟨[], [], []⟩) ∧
     pair1.payee_route = routeB ∧ routeA.node_address = 10 ∧
     payeeT.expiration = 53) := by
  refine ⟨?_, rfl, rfl, rfl, rfl, rfl⟩
  intro pr pt rs tb bn pair evs rs2 h
  have hs := next_transfer_pair_ok_some_spec pr pt rs tb bn pair evs rs2 h
  exact ⟨hs.2.2.2.2.1, hs.2.2.2.2.2.1⟩

/-- Witness for C4 (amended): the scenario 1 construction instantiates
the general statement. -/
theorem next_transfer_pair_copies_fields_and_emits_once_witness :
    next_transfer_pair routeA fromTransfer ⟨[routeB], [], []⟩ 48 10 =
      Except.ok (some pair1, [Event.SendMediatedTransfer payeeT 10], ⟨[], [], []⟩) ∧
    (pair1.payee_transfer = ⟨fromTransfer.identifier, fromTransfer.amount,
        fromTransfer.token, fromTransfer.target,
        48 - (pair1.payee_route.reveal_timeout : Int) + 10,
        fromTransfer.hashlock, fromTransfer.secret⟩ ∧
     [Event.SendMediatedTransfer payeeT 10] =
       [Event.SendMediatedTransfer pair1.payee_transfer routeA.node_address]) :=
  ⟨rfl, next_transfer_pair_copies_fields_and_emits_once.1 routeA fromTransfer
    ⟨[routeB], [], []⟩ 48 10 pair1 [Event.SendMediatedTransfer payeeT 10]
    ⟨[], [], []⟩ rfl⟩

/-- C7 (amended): `events_for_refund_transfer` emits exactly one
`SendRefundTransfer` on the refund route — with the same identifier,
token, amount, hashlock and expiration `(timeout_blocks -
refund_route.reveal_timeout) + block_number` — iff `timeout_blocks -
refund_route.reveal_timeout > 0`, and emits nothing otherwise; for the
scenario 2 init (block 10, expiration 100, settle_timeout 50,
reveal_timeout 5, no available routes) the refund expiration is 53
(`timeout_blocks = min(50, 90) - 2 = 48`) and `transfers_pair` stays
empty. -/
theorem refund_event_iff_positive_lock_timeout :
    (∀ (rr : RouteState) (rt : LockedTransferState) (tb bn : Int),
      (events_for_refund_transfer rr rt tb bn ≠ [] ↔
        0 < tb - (rr.reveal_timeout : Int)) ∧
      (0 < tb - (rr.reveal_timeout : Int) →
        events_for_refund_transfer rr rt tb bn =
          [Event.SendRefundTransfer rt.identifier rt.token rt.amount
            rt.hashlock (tb - (rr.reveal_timeout : Int) + bn)
            rr.node_address])) ∧
    (mediate_transfer st2empty routeA fromTransfer =
      Except.ok ⟨some st2empty, [Event.SendRefundTransfer 1 7 10 9 53 10]⟩ ∧
     st2empty.transfers_pair = []) := by
  refine ⟨?_, rfl, rfl⟩
  intro rr rt tb bn
  unfold events_for_refund_transfer
  dsimp only
  constructor
  · split
    · rename_i hpos
      simpa using hpos
    · rename_i hneg
      simpa using hneg
  · intro hpos
    rw [if_pos (show tb - (rr.reveal_timeout : Int) > 0 from hpos)]

/-- Witness for C7 (amended): scenario 2 numbers instantiate the general
statement. -/
theorem refund_event_iff_positive_lock_timeout_witness :
    0 < (48 : Int) - (routeA.reveal_timeout : Int) ∧
    events_for_refund_transfer routeA fromTransfer 48 10 =
      [Event.SendRefundTransfer fromTransfer.identifier fromTransfer.token
        fromTransfer.amount fromTransfer.hashlock
        (48 - (routeA.reveal_timeout : Int) + 10) routeA.node_address] :=
  ⟨by decide,
   (refund_event_iff_positive_lock_timeout.1 routeA fromTransfer 48 10).2
     (by decide)⟩

/-- C10 (amended): the scenario 3 init (expiration 15 at block 10, best
route reveal_timeout 5) emits no events, but the returned state is the
finalized `⊥`, not the initialized state: the pair list is empty and the
finalizer treats an empty pair list as all-final.  In general the
finalizer replaces the state with `⊥` exactly when every pair —
vacuously so for the empty list — is FINAL on both sides. -/
theorem finalizer_clears_iff_all_pairs_final :
    (state_transition sha3c none initAction3 = Except.ok ⟨none, []⟩) ∧
    (∀ (it : Iteration) (st : MediatorState),
      it.new_state = some st →
      ((clear_if_finalized it).new_state = none ↔
        ∀ pair ∈ st.transfers_pair,
          STATE_TRANSFER_FINAL.contains pair.payee_state = true ∧
          STATE_TRANSFER_FINAL.contains pair.payer_state = true)) := by
  refine ⟨rfl, ?_⟩
  intro it st hst
  unfold clear_if_finalized
  rw [hst]
  dsimp only
  split
  · rename_i hall
    rw [List.all_eq_true] at hall
    refine iff_of_true rfl fun pair hp => ?_
    have hx := hall pair hp
    simp only [Bool.and_eq_true] at hx
    exact hx
  · rename_i hall
    refine iff_of_false (by simp [hst]) ?_
    intro hforall
    apply hall
    rw [List.all_eq_true]
    intro pair hp
    simp only [Bool.and_eq_true]
    exact hforall pair hp

/-- Witness for C10 (amended): a state whose single pair is PAID on both
sides is cleared by the finalizer. -/
theorem finalizer_clears_iff_all_pairs_final_witness :
    (Iteration.mk (some stFinal) []).new_state = some stFinal ∧
    ((clear_if_finalized ⟨some stFinal, []⟩).new_state = none ↔
      ∀ pair ∈ stFinal.transfers_pair,
        STATE_TRANSFER_FINAL.contains pair.payee_state = true ∧
        STATE_TRANSFER_FINAL.contains pair.payer_state = true) :=
  ⟨rfl, finalizer_clears_iff_all_pairs_final.2 ⟨some stFinal, []⟩ stFinal rfl⟩

/-- Transformations that keep every pair's (payer, payee) expirations
keep both ordering invariants. -/
theorem inv_parts_of_map_exps_eq (l l2 : List MediationPairState)
    (h : l2.map pair_exps = l.map pair_exps) :
    (List.Chain'
        (fun a b => b.payer_transfer.expiration < a.payer_transfer.expiration) l →
      List.Chain'
        (fun a b => b.payer_transfer.expiration < a.payer_transfer.expiration) l2) ∧
    ((∀ p ∈ l, p.payee_transfer.expiration ≤ p.payer_transfer.expiration) →
      ∀ p ∈ l2, p.payee_transfer.expiration ≤ p.payer_transfer.expiration) := by
  constructor
  · intro hc
    have hc2 : List.Chain' (fun a b : Int × Int => b.1 < a.1) (l.map pair_exps) :=
      (List.chain'_map pair_exps).mpr hc
    rw [← h] at hc2
    exact (List.chain'_map pair_exps).mp hc2
  · intro hf p hp
    have hmem : pair_exps p ∈ l.map pair_exps := by
      rw [← h]
      exact List.mem_map_of_mem pair_exps hp
    rcases List.mem_map.mp hmem with ⟨q, hq, hqe⟩
    have h1 := congrArg Prod.fst hqe
    have h2 := congrArg Prod.snd hqe
    simp only [pair_exps] at h1 h2
    have := hf q hq
    omega

/-- Mapping a function that keeps expirations keeps the expiration
list. -/
theorem map_exps_map (l : List MediationPairState)
    (f : MediationPairState → MediationPairState)
    (hf : ∀ p, pair_exps (f p) = pair_exps p) :
    (l.map f).map pair_exps = l.map pair_exps := by
  rw [List.map_map]
  exact List.map_eq_map_iff.mpr fun a _ => hf a

/-- The payee-state update loop keeps expirations. -/
theorem set_payee_go_exps (addr : Nat) (ns : String)
    (l : List MediationPairState) :
    (set_payee_go addr ns l).map pair_exps = l.map pair_exps := by
  induction l with
  | nil => rfl
  | cons p rest ih =>
      rw [set_payee_go]
      split <;> simp [ih, pair_exps]

/-- The backward-reveal loop keeps expirations. -/
theorem reveal_go_exps (our : Nat) (l : List MediationPairState) :
    ((reveal_go our l).1).map pair_exps = l.map pair_exps := by
  rw [reveal_go_spec]
  exact map_exps_map l _ fun p => by split <;> rfl

/-- The balance-proof loop keeps expirations. -/
theorem balanceproof_go_exps (bn : Int) (l : List MediationPairState) :
    ((balanceproof_go bn l).1).map pair_exps = l.map pair_exps := by
  rw [balanceproof_go_spec]
  exact map_exps_map l _ fun p => by split <;> rfl

/-- `set_secret` keeps expirations. -/
theorem set_secret_exps (st : MediatorState) (s : Nat) :
    (set_secret st s).transfers_pair.map pair_exps =
      st.transfers_pair.map pair_exps := by
  unfold set_secret
  exact map_exps_map _ _ fun p => rfl

/-- `events_for_revealsecret` keeps expirations. -/
theorem events_for_revealsecret_exps (st : MediatorState) :
    ((events_for_revealsecret st).1).transfers_pair.map pair_exps =
      st.transfers_pair.map pair_exps := by
  unfold events_for_revealsecret
  dsimp only
  rw [List.map_reverse, reveal_go_exps, List.map_reverse, List.reverse_reverse]

/-- `events_for_balanceproof` keeps expirations. -/
theorem events_for_balanceproof_exps (st : MediatorState) :
    ((events_for_balanceproof st).1).transfers_pair.map pair_exps =
      st.transfers_pair.map pair_exps := by
  unfold events_for_balanceproof
  dsimp only
  rw [List.map_reverse, balanceproof_go_exps, List.map_reverse,
    List.reverse_reverse]

/-- `secret_learned` keeps expirations of the pair list. -/
theorem secret_learned_exps (st : MediatorState) (secret payee_address : Nat)
    (ns : String) (it : Iteration) (st2 : MediatorState)
    (h : secret_learned st secret payee_address ns = Except.ok it)
    (hs : it.new_state = some st2) :
    st2.transfers_pair.map pair_exps = st.transfers_pair.map pair_exps := by
  unfold secret_learned at h
  split at h
  · simp at h
  · set st1 := if st.secret = none then set_secret st secret else st with hst1
    have hst1e : st1.transfers_pair.map pair_exps =
        st.transfers_pair.map pair_exps := by
      rw [hst1]
      split
      · exact set_secret_exps st secret
      · rfl
    unfold set_payee_state_and_check_reveal_order at h
    split at h
    · simp only [Bind.bind, Except.bind, pure, Except.pure, Except.ok.injEq] at h
      rw [← h] at hs
      simp only [Option.some.injEq] at hs
      rw [← hs]
      rw [events_for_balanceproof_exps, events_for_revealsecret_exps]
      dsimp only
      rw [List.map_reverse, set_payee_go_exps, List.map_reverse,
        List.reverse_reverse]
      exact hst1e
    · simp at h

/-- The per-pair block update keeps expirations. -/
theorem block_pair_update_exps (bn : Int) (p p2 : MediationPairState)
    (evs : List Event) (h : block_pair_update bn p = Except.ok (p2, evs)) :
    pair_exps p2 = pair_exps p := by
  have hstep : pair_exps (block_withdraw_step bn p).1 = pair_exps p := by
    unfold block_withdraw_step
    dsimp only
    split
    · split <;> rfl
    · rfl
  unfold block_pair_update at h
  dsimp only at h
  split at h
  · split at h
    · simp at h
    · simp only [Except.ok.injEq, Prod.mk.injEq] at h
      rw [← h.1]
      exact hstep
  · simp only [Except.ok.injEq, Prod.mk.injEq] at h
    rw [← h.1]
    exact hstep

/-- `handle_block` keeps expirations of the pair list. -/
theorem handle_block_exps (st : MediatorState) (bn : Int) (it : Iteration)
    (st2 : MediatorState) (h : handle_block st bn = Except.ok it)
    (hs : it.new_state = some st2) :
    st2.transfers_pair.map pair_exps = st.transfers_pair.map pair_exps := by
  unfold handle_block at h
  dsimp only at h
  rcases hE : (get_pending_transfer_pairs st.transfers_pair).reverse.foldlM
      (fun acc pair =>
        (block_pair_update bn pair).map fun x => acc ++ x.2)
      ([] : List Event) with e | evs
  · rw [hE] at h
    simp [Bind.bind, Except.bind] at h
  · rw [hE] at h
    simp only [Bind.bind, Except.bind, pure, Except.pure, Except.ok.injEq] at h
    rw [← h] at hs
    simp only [Option.some.injEq] at hs
    rw [← hs]
    refine map_exps_map _ _ fun p => ?_
    dsimp only
    split
    · rcases hb : block_pair_update bn p with e | pe
      · rfl
      · exact block_pair_update_exps bn p pe.1 pe.2 (by rw [hb])
    · rfl

/-- The finalizer keeps any surviving state unchanged. -/
theorem clear_if_finalized_new_state (it : Iteration) (st2 : MediatorState)
    (h : (clear_if_finalized it).new_state = some st2) :
    it.new_state = some st2 := by
  unfold clear_if_finalized at h
  rcases it with ⟨os, evs⟩
  cases os with
  | none => exact h
  | some st =>
      dsimp only at h
      split at h
      · simp at h
      · exact h

/-- `mediate_transfer` preserves the two ordering invariants: the pair
list is only ever extended at the tail, with a payer transfer whose
expiration is below the previous tail's and a payee expiration bounded
by its payer expiration. -/
theorem mediate_transfer_inv (st : MediatorState) (pr : RouteState)
    (pt : LockedTransferState) (it : Iteration) (st2 : MediatorState)
    (hc : List.Chain'
      (fun a b => b.payer_transfer.expiration < a.payer_transfer.expiration)
      st.transfers_pair)
    (hf : ∀ p ∈ st.transfers_pair,
      p.payee_transfer.expiration ≤ p.payer_transfer.expiration)
    (hlast : ∀ tp, st.transfers_pair.getLast? = some tp →
      pt.expiration < tp.payer_transfer.expiration)
    (h : mediate_transfer st pr pt = Except.ok it)
    (hs : it.new_state = some st2) :
    List.Chain'
      (fun a b => b.payer_transfer.expiration < a.payer_transfer.expiration)
      st2.transfers_pair ∧
    ∀ p ∈ st2.transfers_pair,
      p.payee_transfer.expiration ≤ p.payer_transfer.expiration := by
  unfold mediate_transfer at h
  rcases hg : get_timeout_blocks pr pt st.block_number with e | tb
  · rw [hg] at h
    simp [Bind.bind, Except.bind] at h
  · rw [hg] at h
    simp only [Bind.bind, Except.bind] at h
    by_cases htb : tb > 0
    · rw [if_pos htb] at h
      rcases hn : next_transfer_pair pr pt st.routes tb st.block_number
        with e | ntp
      · rw [hn] at h
        simp at h
      · rw [hn] at h
        rcases ntp with ⟨opair, evs2, rs2⟩
        cases opair with
        | none =>
            dsimp only [pure, Except.pure] at h
            simp only [Except.ok.injEq] at h
            rw [← h] at hs
            simp only [Option.some.injEq] at hs
            rw [← hs]
            exact ⟨hc, hf⟩
        | some pair =>
            dsimp only [pure, Except.pure] at h
            simp only [Except.ok.injEq] at h
            rw [← h] at hs
            simp only [Option.some.injEq] at hs
            rcases next_transfer_pair_ok_some_spec pr pt st.routes tb
              st.block_number pair evs2 rs2 (by rw [hn])
              with ⟨hproute, hptrans, hpst, hpest, hpayee, hevs, htb2, hble⟩
            rw [← hs]
            dsimp only
            constructor
            · rw [List.chain'_append]
              refine ⟨hc, List.chain'_singleton pair, ?_⟩
              intro x hx y hy
              simp only [List.head?_cons, Option.mem_def, Option.some.injEq] at hy
              rw [← hy, hptrans]
              exact hlast x hx
            · intro p hp
              rcases List.mem_append.mp hp with hp | hp
              · exact hf p hp
              · simp only [List.mem_singleton] at hp
                rw [hp, hpayee, hptrans]
                dsimp only
                have hr : (0 : Int) ≤ (pair.payee_route.reveal_timeout : Int) :=
                  Int.ofNat_nonneg _
                omega
    · rw [if_neg htb] at h
      dsimp only [pure, Except.pure] at h
      simp only [Except.ok.injEq] at h
      rw [← h] at hs
      simp only [Option.some.injEq] at hs
      rw [← hs]
      exact ⟨hc, hf⟩

/-- Extract the pre-finalizer iteration from the dispatcher's result. -/
theorem step_ok_extract (E : Except String Iteration) (it : Iteration)
    (st2 : MediatorState) (h : E.map clear_if_finalized = Except.ok it)
    (hs : it.new_state = some st2) :
    ∃ it0, E = Except.ok it0 ∧ it0.new_state = some st2 := by
  rcases E with e | it0
  · simp [Except.map] at h
  · refine ⟨it0, rfl, ?_⟩
    simp only [Except.map, Except.ok.injEq] at h
    exact clear_if_finalized_new_state it0 st2 (h ▸ hs)

/-- `handle_refundtransfer` preserves the two ordering invariants: a
valid refund re-enters mediation with a payer expiration strictly below
the previous tail's payer expiration. -/
theorem handle_refundtransfer_inv (st : MediatorState) (sender : Nat)
    (transfer : LockedTransferState) (it : Iteration) (st2 : MediatorState)
    (hc : List.Chain'
      (fun a b => b.payer_transfer.expiration < a.payer_transfer.expiration)
      st.transfers_pair)
    (hf : ∀ p ∈ st.transfers_pair,
      p.payee_transfer.expiration ≤ p.payer_transfer.expiration)
    (h : handle_refundtransfer st sender transfer = Except.ok it)
    (hs : it.new_state = some st2) :
    List.Chain'
      (fun a b => b.payer_transfer.expiration < a.payer_transfer.expiration)
      st2.transfers_pair ∧
    ∀ p ∈ st2.transfers_pair,
      p.payee_transfer.expiration ≤ p.payer_transfer.expiration := by
  unfold handle_refundtransfer at h
  split at h
  · simp at h
  · rcases hlast : st.transfers_pair.getLast? with _ | tp
    · rw [hlast] at h
      simp at h
    · rw [hlast] at h
      dsimp only at h
      split at h
      · rename_i hvalid
        have hlast2 : ∀ tp2, st.transfers_pair.getLast? = some tp2 →
            transfer.expiration < tp2.payer_transfer.expiration := by
          intro tp2 htp2
          rw [hlast] at htp2
          simp only [Option.some.injEq] at htp2
          rw [← htp2]
          have hexp :=
            ((is_valid_refund_true_iff tp.payee_transfer sender transfer).mp
              hvalid).2.2.2.2.2
          have hmem := hf tp (List.mem_of_mem_getLast? hlast)
          omega
        exact mediate_transfer_inv
          { st with routes := { st.routes with
              refund_routes := st.routes.refund_routes ++ [tp.payee_route] } }
          tp.payee_route transfer it st2 hc hf hlast2 h hs
      · dsimp only [pure, Except.pure] at h
        simp only [Except.ok.injEq] at h
        rw [← h] at hs
        simp only [Option.some.injEq] at hs
        rw [← hs]
        exact ⟨hc, hf⟩

/-- `handle_secretreveal` preserves the ordering invariants. -/
theorem handle_secretreveal_inv (h3 : Nat → Nat) (st : MediatorState)
    (sender secret : Nat) (it : Iteration) (st2 : MediatorState)
    (hc : List.Chain'
      (fun a b => b.payer_transfer.expiration < a.payer_transfer.expiration)
      st.transfers_pair)
    (hf : ∀ p ∈ st.transfers_pair,
      p.payee_transfer.expiration ≤ p.payer_transfer.expiration)
    (h : handle_secretreveal h3 st sender secret = Except.ok it)
    (hs : it.new_state = some st2) :
    List.Chain'
      (fun a b => b.payer_transfer.expiration < a.payer_transfer.expiration)
      st2.transfers_pair ∧
    ∀ p ∈ st2.transfers_pair,
      p.payee_transfer.expiration ≤ p.payer_transfer.expiration := by
  unfold handle_secretreveal at h
  split at h
  · have hexps := secret_learned_exps st secret sender
      "payee_secret_revealed" it st2 h hs
    have hparts := inv_parts_of_map_exps_eq st.transfers_pair
      st2.transfers_pair hexps
    exact ⟨hparts.1 hc, hparts.2 hf⟩
  · simp only [Except.ok.injEq] at h
    rw [← h] at hs
    simp only [Option.some.injEq] at hs
    rw [← hs]
    exact ⟨hc, hf⟩

/-- `handle_contractwithdraw` preserves the ordering invariants. -/
theorem handle_contractwithdraw_inv (h3 : Nat → Nat) (st : MediatorState)
    (channel_address sender secret : Nat) (it : Iteration)
    (st2 : MediatorState)
    (hc : List.Chain'
      (fun a b => b.payer_transfer.expiration < a.payer_transfer.expiration)
      st.transfers_pair)
    (hf : ∀ p ∈ st.transfers_pair,
      p.payee_transfer.expiration ≤ p.payer_transfer.expiration)
    (h : handle_contractwithdraw h3 st channel_address sender secret =
      Except.ok it)
    (hs : it.new_state = some st2) :
    List.Chain'
      (fun a b => b.payer_transfer.expiration < a.payer_transfer.expiration)
      st2.transfers_pair ∧
    ∀ p ∈ st2.transfers_pair,
      p.payee_transfer.expiration ≤ p.payer_transfer.expiration := by
  unfold handle_contractwithdraw at h
  rcases hsec : st.secret with _ | s
  · rw [hsec] at h
    simp at h
  · rw [hsec] at h
    dsimp only at h
    split at h
    · simp at h
    · split at h
      · simp at h
      · have hexps := secret_learned_exps st secret sender
          "payee_contract_withdraw" it st2 h hs
        have hparts := inv_parts_of_map_exps_eq st.transfers_pair
          st2.transfers_pair hexps
        exact ⟨hparts.1 hc, hparts.2 hf⟩

/-- `handle_balanceproof` preserves the ordering invariants. -/
theorem handle_balanceproof_inv (st : MediatorState) (node_address : Nat)
    (st2 : MediatorState)
    (hc : List.Chain'
      (fun a b => b.payer_transfer.expiration < a.payer_transfer.expiration)
      st.transfers_pair)
    (hf : ∀ p ∈ st.transfers_pair,
      p.payee_transfer.expiration ≤ p.payer_transfer.expiration)
    (hs : (handle_balanceproof st node_address).new_state = some st2) :
    List.Chain'
      (fun a b => b.payer_transfer.expiration < a.payer_transfer.expiration)
      st2.transfers_pair ∧
    ∀ p ∈ st2.transfers_pair,
      p.payee_transfer.expiration ≤ p.payer_transfer.expiration := by
  unfold handle_balanceproof at hs
  dsimp only at hs
  simp only [Option.some.injEq] at hs
  rw [← hs]
  have hexps : (st.transfers_pair.map fun pair =>
      if pair.payer_route.channel_address = node_address then
        { pair with payer_state := "payer_balance_proof" }
      else pair).map pair_exps = st.transfers_pair.map pair_exps :=
    map_exps_map _ _ fun p => by split <;> rfl
  have hparts := inv_parts_of_map_exps_eq st.transfers_pair _ hexps
  exact ⟨hparts.1 hc, hparts.2 hf⟩

/-- C9: after every transition the pair list is sorted by non-increasing
(indeed strictly decreasing) payer expiration: initialization establishes
the invariant and every dispatched event preserves it, because mediation
only appends a pair whose payer expiration is strictly below the previous
tail's (refund re-entry included) and every other handler keeps all
expirations. -/
theorem transfers_pair_sorted_invariant :
    (∀ (h3 : Nat → Nat) (sc : StateChange) (it : Iteration)
        (st2 : MediatorState),
      state_transition h3 none sc = Except.ok it →
      it.new_state = some st2 → mediator_inv st2) ∧
    (∀ (h3 : Nat → Nat) (st : MediatorState) (sc : StateChange)
        (it : Iteration) (st2 : MediatorState),
      mediator_inv st →
      state_transition h3 (some st) sc = Except.ok it →
      it.new_state = some st2 → mediator_inv st2) := by
  constructor
  · intro h3 sc it st2 h hs
    cases sc with
    | ActionInitMediator our routes bn fr ft =>
        unfold state_transition at h
        dsimp only at h
        obtain ⟨it0, hE, hs0⟩ := step_ok_extract _ it st2 h hs
        exact mediate_transfer_inv _ fr ft it0 st2 List.chain'_nil
          (by intro p hp; simp at hp) (by intro tp htp; simp at htp) hE hs0
    | Block bn => unfold state_transition at h; simp [Except.map] at h
    | ActionRouteChange f => unfold state_transition at h; simp [Except.map] at h
    | ReceiveTransferRefund s t => unfold state_transition at h; simp [Except.map] at h
    | ReceiveSecretReveal s sec => unfold state_transition at h; simp [Except.map] at h
    | ReceiveBalanceProof na => unfold state_transition at h; simp [Except.map] at h
    | ContractReceiveWithdraw c s sec => unfold state_transition at h; simp [Except.map] at h
  · intro h3 st sc it st2 hinv h hs
    obtain ⟨hc, hf⟩ := hinv
    unfold state_transition at h
    dsimp only at h
    by_cases hsec : st.secret = none
    · rw [if_pos hsec] at h
      cases sc with
      | Block bn =>
          obtain ⟨it0, hE, hs0⟩ := step_ok_extract _ it st2 h hs
          have hexps := handle_block_exps st bn it0 st2 hE hs0
          have hparts := inv_parts_of_map_exps_eq st.transfers_pair
            st2.transfers_pair hexps
          exact ⟨hparts.1 hc, hparts.2 hf⟩
      | ActionRouteChange f =>
          obtain ⟨it0, hE, hs0⟩ := step_ok_extract _ it st2 h hs
          simp only [Except.ok.injEq] at hE
          rw [← hE] at hs0
          unfold handle_routechange at hs0
          dsimp only at hs0
          simp only [Option.some.injEq] at hs0
          rw [← hs0]
          exact ⟨hc, hf⟩
      | ReceiveTransferRefund sender transfer =>
          obtain ⟨it0, hE, hs0⟩ := step_ok_extract _ it st2 h hs
          exact handle_refundtransfer_inv st sender transfer it0 st2 hc hf hE hs0
      | ReceiveSecretReveal sender secret =>
          obtain ⟨it0, hE, hs0⟩ := step_ok_extract _ it st2 h hs
          exact handle_secretreveal_inv h3 st sender secret it0 st2 hc hf hE hs0
      | ContractReceiveWithdraw ch s sec =>
          obtain ⟨it0, hE, hs0⟩ := step_ok_extract _ it st2 h hs
          exact handle_contractwithdraw_inv h3 st ch s sec it0 st2 hc hf hE hs0
      | ActionInitMediator our routes bn fr ft => simp [Except.map] at h
      | ReceiveBalanceProof na => simp [Except.map] at h
    · rw [if_neg hsec] at h
      cases sc with
      | Block bn =>
          obtain ⟨it0, hE, hs0⟩ := step_ok_extract _ it st2 h hs
          have hexps := handle_block_exps st bn it0 st2 hE hs0
          have hparts := inv_parts_of_map_exps_eq st.transfers_pair
            st2.transfers_pair hexps
          exact ⟨hparts.1 hc, hparts.2 hf⟩
      | ReceiveSecretReveal sender secret =>
          obtain ⟨it0, hE, hs0⟩ := step_ok_extract _ it st2 h hs
          exact handle_secretreveal_inv h3 st sender secret it0 st2 hc hf hE hs0
      | ReceiveBalanceProof na =>
          obtain ⟨it0, hE, hs0⟩ := step_ok_extract _ it st2 h hs
          simp only [Except.ok.injEq] at hE
          rw [← hE] at hs0
          exact handle_balanceproof_inv st na st2 hc hf hs0
      | ContractReceiveWithdraw ch s sec =>
          obtain ⟨it0, hE, hs0⟩ := step_ok_extract _ it st2 h hs
          exact handle_contractwithdraw_inv h3 st ch s sec it0 st2 hc hf hE hs0
      | ActionInitMediator our routes bn fr ft => simp [Except.map] at h
      | ActionRouteChange f => simp [Except.map] at h
      | ReceiveTransferRefund sender transfer => simp [Except.map] at h

/-- Witness for C9: the scenario 1 initialization satisfies the
invariant. -/
theorem transfers_pair_sorted_invariant_witness :
    state_transition sha3c none initAction =
      Except.ok ⟨some st1, [Event.SendMediatedTransfer payeeT 10]⟩ ∧
    mediator_inv st1 :=
  ⟨rfl, transfers_pair_sorted_invariant.1 sha3c initAction
    ⟨some st1, [Event.SendMediatedTransfer payeeT 10]⟩ st1 rfl rfl⟩

end Mediator
